import Mathlib

/-!
Shallow embedding of the main-process IPC module (`lib/main/ipc.js`) of
editor-framework: the request/reply correlator built on `_nextSessionId` and
`_replyCallbacks`, the broadcast operations `sendToAll` / `sendToWins` with the
trailing exclude-self option, panel-aware routing `sendToPanel`, and the
main-window send `sendToMainWin`.

The module's observable behaviour is modelled as pure functions from explicit
state to (state, list of events).  Window delivery, local `ipcMain.emit`
dispatch, `Console.error` diagnostics and reply-callback invocations are all
recorded as events.
-/

namespace Ipc

/-- JavaScript runtime values, as far as `ipc.js` inspects them: it only ever
asks `typeof v`, truthiness, and reads the fields `__ipc__`, `exclude` and
`type`.  Functions are opaque and identified by a numeric id. -/
inductive JSVal where
  | vUndefined : JSVal
  | vNull : JSVal
  | vBool (b : Bool) : JSVal
  | vNum (n : Int) : JSVal
  | vStr (s : String) : JSVal
  | vFun (fid : Nat) : JSVal
  | vObj (fields : List (String × JSVal)) : JSVal

namespace JSVal

/-- JavaScript `typeof`. Note `typeof null === 'object'`. -/
def typeofStr : JSVal → String
  | vUndefined => "undefined"
  | vNull => "object"
  | vBool _ => "boolean"
  | vNum _ => "number"
  | vStr _ => "string"
  | vFun _ => "function"
  | vObj _ => "object"

/-- JavaScript truthiness of a value. -/
def truthy : JSVal → Bool
  | vUndefined => false
  | vNull => false
  | vBool b => b
  | vNum n => n != 0
  | vStr s => s ≠ ""
  | vFun _ => true
  | vObj _ => true

/-- Property read `v.name`: defined fields of an object, `undefined` otherwise
(the code only dereferences values it has guarded to be truthy objects). -/
def getField : JSVal → String → JSVal
  | vObj fields, name => (fields.lookup name).getD vUndefined
  | _, _ => vUndefined

/-- The string payload of a string value (callers have already checked
`typeof v === 'string'`). -/
def strVal : JSVal → String
  | vStr s => s
  | _ => ""

/-- JavaScript strict equality `v === 'self'` against the string literal
`'self'`. -/
def isSelfStr : JSVal → Bool
  | vStr s => s == "self"
  | _ => false

end JSVal

open JSVal

/-- The module-level sentinel `Ipc.excludeSelf = { '__ipc__': true, 'exclude': 'self' }`. -/
def excludeSelfVal : JSVal :=
  .vObj [("__ipc__", .vBool true), ("exclude", .vStr "self")]

/-- Observable effects of the ipc module: window broadcasts, local main-process
dispatch, request/reply envelopes, per-window page delivery, reply-callback
invocations, and `Console.error` / `console.error` diagnostics. -/
inductive Event where
  /-- A `Console.error` / `console.error` diagnostic emitted at the main
  (coordinating) process. -/
  | consoleErr (msg : String) : Event
  /-- `_main2main(message, ...args)`: local dispatch to the main process's own
  handlers. -/
  | main2main (message : String) (args : List JSVal) : Event
  /-- `_send2wins(message, ...args)`: broadcast to every opened window. -/
  | send2wins (message : String) (args : List JSVal) : Event
  /-- The request envelope `_main2main('editor:sendreq2core', message,
  sessionId, args)`. -/
  | reqToCore (message : String) (sid : Nat) (args : List JSVal) : Event
  /-- `event.sender.send('editor:sendreq2core:reply', sessionId, args)`: the
  reply envelope sent back to the requesting endpoint. -/
  | replyToSender (sid : Nat) (args : List JSVal) : Event
  /-- `ipcMain.emit(message, event, replyCallback, ...args)`: dispatch of an
  inbound request to the registered core-level handlers, with the single-fire
  reply wrapper injected ahead of the request arguments. -/
  | emitReq (message : String) (sid : Nat) (args : List JSVal) : Event
  /-- Invocation `cb.apply(null, args)` of the stored reply callback of session
  `sid`. -/
  | fire (sid : Nat) (cb : JSVal) (args : List JSVal) : Event
  /-- `win.sendToPage(message, ...args)` on a single window. -/
  | sendToPage (win : Nat) (message : String) (args : List JSVal) : Event

/-- Is the event a reply envelope sent back to the requesting endpoint? -/
def Event.isReplyToSender : Event → Bool
  | .replyToSender _ _ => true
  | _ => false

/-- Is the event a `Console.error` / `console.error` diagnostic? -/
def Event.isConsoleErr : Event → Bool
  | .consoleErr _ => true
  | _ => false

/-- The mutable module state of the correlator: `_nextSessionId` and the
pending reply-callback table `_replyCallbacks` (an association list; lookup
takes the first binding, deletion removes the key entirely, as for a JS
object). -/
structure CoreState where
  nextSessionId : Nat
  replyCallbacks : List (Nat × JSVal)

/-- Initial module state: `let _nextSessionId = 1000; let _replyCallbacks = {};`. -/
def initState : CoreState := ⟨1000, []⟩

/-- The session ids currently pending in `_replyCallbacks`. -/
def CoreState.keys (st : CoreState) : List Nat :=
  st.replyCallbacks.map Prod.fst

/-- Lookup of `_replyCallbacks[sid]`. -/
def CoreState.lookup (st : CoreState) (sid : Nat) : Option JSVal :=
  st.replyCallbacks.lookup sid

/-- `delete _replyCallbacks[sid]`. -/
def CoreState.erase (st : CoreState) (sid : Nat) : CoreState :=
  ⟨st.nextSessionId, st.replyCallbacks.filter (fun p => p.1 ≠ sid)⟩

/-- `Ipc.sendRequestToCore(message, ...args)`: validates that `message` is a
string, that at least one argument is present, and that the last argument is a
function; on success pops the reply function, allocates `sessionId =
_nextSessionId++`, stores the reply in `_replyCallbacks`, routes the request
envelope via `_main2main('editor:sendreq2core', message, sessionId, args)` and
returns the session id; on failure reports a `Console.error` and returns
`null` (modelled as `none`). -/
def sendRequestToCore (message : JSVal) (args : List JSVal) (st : CoreState) :
    Option Nat × CoreState × List Event :=
  if message.typeofStr ≠ "string" then
    (none, st, [.consoleErr "The message must be string"])
  else if args.length = 0 then
    (none, st, [.consoleErr "Invalid arguments, reply function not found!"])
  else
    let reply := (args.getLast?).getD .vUndefined
    if reply.typeofStr ≠ "function" then
      (none, st, [.consoleErr "The last argument must be function"])
    else
      let args' := args.dropLast
      let sid := st.nextSessionId
      (some sid, ⟨sid + 1, (sid, reply) :: st.replyCallbacks⟩,
        [.reqToCore message.strVal sid args'])

/-- `Ipc.cancelRequestToCore(sessionId)`: `delete _replyCallbacks[sessionId]`.
No diagnostic, no invocation, no other state change. -/
def cancelRequestToCore (sid : Nat) (st : CoreState) : CoreState :=
  st.erase sid

/-- The `ipcMain.on('editor:sendreq2core:reply')` handler: if a callback is
pending for `sessionId` it is deleted from `_replyCallbacks` *before* being
applied to `args`; otherwise the envelope is silently ignored. -/
def onReplyEnvelope (sid : Nat) (args : List JSVal) (st : CoreState) :
    CoreState × List Event :=
  match st.lookup sid with
  | some cb => (st.erase sid, [.fire sid cb args])
  | none => (st, [])

/-- One inbound action at the correlator: a `sendRequestToCore` call, a
`cancelRequestToCore` call, or the arrival of a reply envelope. -/
inductive Action where
  | sendReq (message : JSVal) (args : List JSVal) : Action
  | cancel (sid : Nat) : Action
  | reply (sid : Nat) (args : List JSVal) : Action

/-- One step of the correlator's event loop. -/
def step (st : CoreState) : Action → CoreState × List Event
  | .sendReq m as =>
    let r := sendRequestToCore m as st
    (r.2.1, r.2.2)
  | .cancel sid => (cancelRequestToCore sid st, [])
  | .reply sid as => onReplyEnvelope sid as st

/-- Run a whole trace of actions from a state, collecting the event log. -/
def run (st : CoreState) : List Action → CoreState × List Event
  | [] => (st, [])
  | a :: tr =>
    let r := step st a
    let r' := run r.1 tr
    (r'.1, r.2 ++ r'.2)

/-- The session ids whose stored callback was invoked, in log order. -/
def firedIds (evs : List Event) : List Nat :=
  evs.filterMap fun e =>
    match e with
    | .fire sid _ _ => some sid
    | _ => none

/-- The session ids allocated by successful `sendRequestToCore` calls (each
successful call emits exactly one request envelope carrying its fresh id), in
log order. -/
def allocIds (evs : List Event) : List Nat :=
  evs.filterMap fun e =>
    match e with
    | .reqToCore _ sid _ => some sid
    | _ => none

/-- State invariant of the correlator: every pending session id was allocated
in the past, i.e. is below `_nextSessionId`. -/
def Inv (st : CoreState) : Prop :=
  ∀ k ∈ st.keys, k < st.nextSessionId

instance (st : CoreState) : Decidable (Inv st) := by
  unfold Inv; infer_instance

/-- The check `opt && typeof opt === 'object' && opt.__ipc__` with which
`_popOption` decides whether a trailing value is an ipc option object. -/
def isIpcOpt (v : JSVal) : Bool :=
  v.truthy && v.typeofStr == "object" && (v.getField "__ipc__").truthy

/-- `_popOption(args)`: peeks at the last argument; when it is a truthy value
of `typeof` object whose `__ipc__` field is truthy, removes it from the
argument list (`args.splice(-1,1)`) and returns it; otherwise returns `null`
and leaves the arguments untouched.  Returned as (popped option, remaining
arguments). -/
def _popOption (args : List JSVal) : Option JSVal × List JSVal :=
  let opt := (args.getLast?).getD .vUndefined
  if isIpcOpt opt then
    (some opt, args.dropLast)
  else
    (none, args)

/-- A value that both gets popped by `_popOption` and passes the
`opt.exclude === 'self'` test: the shape of the `Ipc.excludeSelf` sentinel as
the code actually matches it. -/
def isExcludeSelfOpt (v : JSVal) : Bool :=
  isIpcOpt v && (v.getField "exclude").isSelfStr

/-- `Ipc.sendToWins = _send2wins`: broadcast `message` with `args` to every
opened window; no option extraction of any kind. -/
def sendToWins (message : String) (args : List JSVal) : List Event :=
  [.send2wins message args]

/-- `Ipc.sendToAll(message, ...args)`: when arguments are present, pops a
trailing ipc option object and sets `excludeSelf` when its `exclude` field
strictly equals `'self'`; dispatches locally via `_main2main` unless
`excludeSelf`, then broadcasts to all windows via `_send2wins`. -/
def sendToAll (message : String) (args : List JSVal) : List Event :=
  if args.length ≠ 0 then
    let r := _popOption args
    let excludeSelf :=
      match r.1 with
      | some o => (o.getField "exclude").isSelfStr
      | none => false
    (if excludeSelf then [] else [.main2main message r.2]) ++ [.send2wins message r.2]
  else
    [.main2main message [], .send2wins message []]

/-- Panel descriptor as `Ipc.sendToPanel` reads it: only the `type` field of
`Package.panelInfo(panelID)` is inspected. -/
structure PanelInfo where
  type : String
deriving DecidableEq

/-- Modelled from the spec: the external panel/package registries consumed by
`sendToPanel` — `Panel.findWindow(panelID)` resolving a panel id to its owner
window (may fail) and `Package.panelInfo(panelID)` resolving a panel id to its
descriptor (may fail).  Both live outside `src/` (`lib/main/panel.js`,
`lib/main/package.js`) and are treated by the spec as out-of-scope
collaborators with exactly these narrow lookup interfaces. -/
structure PanelEnv where
  findWindow : String → Option Nat
  panelInfo : String → Option PanelInfo

/-- `Ipc.sendToPanel(panelID, message, ...args)`: resolves the owner window,
then the panel descriptor, silently dropping the message if either lookup
fails; a `simple` panel's window receives the raw `(message, args)`, any other
kind receives the wrapped `('editor:send2panel', panelID, message, ...args)`
envelope. -/
def sendToPanel (env : PanelEnv) (panelID : String) (message : String)
    (args : List JSVal) : List Event :=
  match env.findWindow panelID with
  | none => []
  | some win =>
    match env.panelInfo panelID with
    | none => []
    | some info =>
      if info.type = "simple" then
        [.sendToPage win message args]
      else
        [.sendToPage win "editor:send2panel" (.vStr panelID :: .vStr message :: args)]

/-- `Ipc.sendToMainWin(message, ...args)`: when `Window.main` is absent, logs
a `console.error` diagnostic and performs no delivery; otherwise delivers
`(message, args)` to the main window's page. -/
def sendToMainWin (mainWin : Option Nat) (message : String) (args : List JSVal) :
    List Event :=
  match mainWin with
  | none =>
    [.consoleErr ("Failed to send \"" ++ message ++
      "\" to main window, the main window is not found.")]
  | some w => [.sendToPage w message args]

/-- The `ipcMain.on('editor:sendreq2core')` handler: builds the single-fire
reply wrapper bound to `(event.sender, sessionId)`, dispatches the message to
the registered core-level handlers with the wrapper injected, and reports a
`Console.error` when `ipcMain.emit` says no listener was registered.
`registered` abstracts the result of `_renderer2main` / `ipcMain.emit`
(whether at least one listener exists for `message`). -/
def onReqToCore (registered : Bool) (message : String) (sid : Nat)
    (args : List JSVal) : List Event :=
  if registered then
    [.emitReq message sid args]
  else
    [.emitReq message sid args,
     .consoleErr ("The listener of message \"" ++ message ++
       "\" is not yet registered!")]

/-- One invocation of the `_replyCallback` wrapper created by the
`editor:sendreq2core` handler, carrying its `called` flag: a first invocation
sends the reply envelope to the request's sender and sets the flag; any later
invocation reports a `Console.error` and sends nothing. -/
def replyCallbackStep (message : String) (sid : Nat) (called : Bool)
    (args : List JSVal) : Bool × List Event :=
  if called then
    (called,
     [.consoleErr ("The callback which reply to \"" ++ message ++
       "\" can only be called once!")])
  else
    (true, [.replyToSender sid args])

/-- A sequence of invocations of one `_replyCallback` wrapper, threading its
`called` flag through `replyCallbackStep`. -/
def replyCallbackRun (message : String) (sid : Nat) (called : Bool) :
    List (List JSVal) → List Event
  | [] => []
  | as :: rest =>
    let r := replyCallbackStep message sid called as
    r.2 ++ replyCallbackRun message sid r.1 rest

-- ========================================
-- General lemmas about the correlator
-- ========================================

theorem run_nil (st : CoreState) : run st [] = (st, []) := rfl

theorem run_cons (st : CoreState) (a : Action) (tr : List Action) :
    run st (a :: tr) =
      ((run (step st a).1 tr).1, (step st a).2 ++ (run (step st a).1 tr).2) := rfl

theorem firedIds_append (l1 l2 : List Event) :
    firedIds (l1 ++ l2) = firedIds l1 ++ firedIds l2 := by
  simp [firedIds]

theorem allocIds_append (l1 l2 : List Event) :
    allocIds (l1 ++ l2) = allocIds l1 ++ allocIds l2 := by
  simp [allocIds]

theorem lookup_some_mem {l : List (Nat × JSVal)} {sid : Nat} {cb : JSVal}
    (h : l.lookup sid = some cb) : sid ∈ l.map Prod.fst := by
  induction l with
  | nil => simp [List.lookup] at h
  | cons p rest ih =>
    obtain ⟨k, b⟩ := p
    by_cases hk : sid = k
    · simp [hk]
    · rw [List.lookup_cons] at h
      have hbeq : (sid == k) = false := by simp [hk]
      rw [hbeq] at h
      simpa using Or.inr (ih h)

theorem lookup_none_of_not_mem {l : List (Nat × JSVal)} {sid : Nat}
    (h : sid ∉ l.map Prod.fst) : l.lookup sid = none := by
  induction l with
  | nil => simp [List.lookup]
  | cons p rest ih =>
    obtain ⟨k, b⟩ := p
    simp only [List.map_cons, List.mem_cons] at h
    push_neg at h
    rw [List.lookup_cons]
    have hbeq : (sid == k) = false := by simp [h.1]
    rw [hbeq]
    exact ih h.2

theorem keys_erase_subset {st : CoreState} {sid k : Nat}
    (h : k ∈ (st.erase sid).keys) : k ∈ st.keys := by
  simp only [CoreState.erase, CoreState.keys, List.mem_map, List.mem_filter] at h ⊢
  obtain ⟨p, ⟨hp, _⟩, hpk⟩ := h
  exact ⟨p, hp, hpk⟩

theorem not_mem_keys_erase (st : CoreState) (sid : Nat) :
    sid ∉ (st.erase sid).keys := by
  simp only [CoreState.erase, CoreState.keys, List.mem_map, List.mem_filter]
  rintro ⟨p, ⟨_, hne⟩, hpk⟩
  simp only [decide_eq_true_eq] at hne
  exact hne hpk

theorem erase_next (st : CoreState) (sid : Nat) :
    (st.erase sid).nextSessionId = st.nextSessionId := rfl

/-- Exhaustive shape of one Ipc.sendRequestToCore call: either a validation
failure that returns null, leaves the state untouched and reports a single
diagnostic, or a success that allocates the current next session id,
registers the popped reply function and emits the request envelope. -/
theorem sendRequestToCore_cases (m : JSVal) (args : List JSVal) (st : CoreState) :
    (∃ e, sendRequestToCore m args st = (none, st, [.consoleErr e]))
    ∨ sendRequestToCore m args st =
        (some st.nextSessionId,
         ⟨st.nextSessionId + 1,
          (st.nextSessionId, (args.getLast?).getD .vUndefined) :: st.replyCallbacks⟩,
         [.reqToCore m.strVal st.nextSessionId args.dropLast]) := by
  unfold sendRequestToCore
  split
  · exact Or.inl ⟨_, rfl⟩
  · split
    · exact Or.inl ⟨_, rfl⟩
    · dsimp only
      split
      · exact Or.inl ⟨_, rfl⟩
      · exact Or.inr rfl

/-- Exhaustive shape of one step as far as session-id allocation goes: either
the step allocates nothing and leaves the counter alone, or it allocates
exactly the current counter value and bumps it by one. -/
theorem step_alloc_cases (st : CoreState) (a : Action) :
    (allocIds (step st a).2 = [] ∧ (step st a).1.nextSessionId = st.nextSessionId)
    ∨ (allocIds (step st a).2 = [st.nextSessionId]
       ∧ (step st a).1.nextSessionId = st.nextSessionId + 1) := by
  cases a with
  | sendReq m as =>
    rcases sendRequestToCore_cases m as st with ⟨e, he⟩ | he
    · exact Or.inl (by simp [step, he, allocIds])
    · exact Or.inr (by simp [step, he, allocIds])
  | cancel sid => exact Or.inl (by simp [step, allocIds, cancelRequestToCore, erase_next])
  | reply sid as =>
    simp only [step, onReplyEnvelope]
    split
    · exact Or.inl (by simp [allocIds, erase_next])
    · exact Or.inl (by simp [allocIds])

/-- Exhaustive shape of one step as far as callback invocation goes: either
no stored callback is invoked, or the step is the arrival of a reply envelope
for a pending session, which fires exactly that session once and erases it. -/
theorem step_fired_cases (st : CoreState) (a : Action) :
    firedIds (step st a).2 = []
    ∨ ∃ sid as cb, a = .reply sid as ∧ st.lookup sid = some cb
        ∧ firedIds (step st a).2 = [sid] ∧ (step st a).1 = st.erase sid := by
  cases a with
  | sendReq m as =>
    rcases sendRequestToCore_cases m as st with ⟨e, he⟩ | he
    · exact Or.inl (by simp [step, he, firedIds])
    · exact Or.inl (by simp [step, he, firedIds])
  | cancel sid => exact Or.inl (by simp [step, firedIds])
  | reply sid as =>
    simp only [step, onReplyEnvelope]
    cases h : st.lookup sid with
    | some cb =>
      exact Or.inr ⟨sid, as, cb, rfl, h, by simp [onReplyEnvelope, h, firedIds]⟩
    | none => exact Or.inl (by simp [firedIds])

theorem step_next_mono (st : CoreState) (a : Action) :
    st.nextSessionId ≤ (step st a).1.nextSessionId := by
  rcases step_alloc_cases st a with ⟨_, h⟩ | ⟨_, h⟩ <;> omega

theorem step_keys_cases (st : CoreState) (a : Action) {k : Nat}
    (h : k ∈ (step st a).1.keys) : k ∈ st.keys ∨ k = st.nextSessionId := by
  cases a with
  | sendReq m as =>
    rcases sendRequestToCore_cases m as st with ⟨e, he⟩ | he
    · simp only [step, he] at h
      exact Or.inl h
    · simp only [step, he, CoreState.keys, List.map_cons, List.mem_cons] at h
      rcases h with h | h
      · exact Or.inr h
      · exact Or.inl h
  | cancel sid =>
    exact Or.inl (keys_erase_subset h)
  | reply sid as =>
    simp only [step, onReplyEnvelope] at h
    rcases hl : st.lookup sid with _ | cb
    · rw [hl] at h
      exact Or.inl h
    · rw [hl] at h
      exact Or.inl (keys_erase_subset h)

theorem step_inv (st : CoreState) (a : Action) (h : Inv st) : Inv (step st a).1 := by
  intro k hk
  have hnext := step_next_mono st a
  rcases step_keys_cases st a hk with hmem | rfl
  · have := h k hmem
    rcases step_alloc_cases st a with ⟨_, he⟩ | ⟨_, he⟩ <;> omega
  · rcases step_alloc_cases st a with ⟨ha, he⟩ | ⟨ha, he⟩
    · exfalso
      rcases step_fired_cases st a with hf | ⟨sid, as, cb, rfl, hcb, hf, hst⟩
      · -- the only step that can add the fresh key is a successful sendReq,
        -- which also allocates; a non-allocating step only shrinks the keys
        cases a with
        | sendReq m as =>
          rcases sendRequestToCore_cases m as st with ⟨e, hse⟩ | hse
          · simp only [step, hse] at hk
            exact absurd (h _ hk) (by omega)
          · simp [step, hse, allocIds] at ha
        | cancel sid =>
          exact absurd (h _ (keys_erase_subset hk)) (by omega)
        | reply sid as =>
          simp only [step, onReplyEnvelope] at hk
          rcases hl : st.lookup sid with _ | cb
          · rw [hl] at hk
            exact absurd (h _ hk) (by omega)
          · rw [hl] at hk
            exact absurd (h _ (keys_erase_subset hk)) (by omega)
      · rw [hst] at hk
        exact absurd (h _ (keys_erase_subset hk)) (by omega)
    · omega

/-- A session id that is not pending and was already allocated can never fire
again: no later action can re-register it, because registration always uses
the strictly larger current counter. -/
theorem not_fired_of_not_pending (st : CoreState) (tr : List Action) (sid : Nat)
    (hinv : Inv st) (hlt : sid < st.nextSessionId) (hout : sid ∉ st.keys) :
    sid ∉ firedIds (run st tr).2 := by
  induction tr generalizing st with
  | nil => simp [run_nil, firedIds]
  | cons a tr ih =>
    rw [run_cons, firedIds_append, List.mem_append]
    rintro (hfire | hfire)
    · rcases step_fired_cases st a with hf | ⟨sid', as, cb, rfl, hcb, hf, _⟩
      · rw [hf] at hfire
        exact absurd hfire (List.not_mem_nil sid)
      · rw [hf] at hfire
        simp only [List.mem_singleton] at hfire
        subst hfire
        exact hout (lookup_some_mem hcb)
    · have hinv' := step_inv st a hinv
      have hnext := step_next_mono st a
      have hout' : sid ∉ (step st a).1.keys := by
        intro hmem
        rcases step_keys_cases st a hmem with hmem' | rfl
        · exact hout hmem'
        · omega
      exact ih (step st a).1 hinv' (by omega) hout' hfire

/-- From any state satisfying the invariant, every session id fires at most
once over any trace of sends, cancels and reply envelopes. -/
theorem firedIds_nodup (st : CoreState) (tr : List Action) (hinv : Inv st) :
    (firedIds (run st tr).2).Nodup := by
  induction tr generalizing st with
  | nil => simp [run_nil, firedIds]
  | cons a tr ih =>
    rw [run_cons, firedIds_append]
    have hinv' := step_inv st a hinv
    rcases step_fired_cases st a with hf | ⟨sid, as, cb, rfl, hcb, hf, hst⟩
    · rw [hf]
      simpa using ih (step st a).1 hinv'
    · rw [hf]
      refine List.nodup_cons.2 ⟨?_, ih (step st (.reply sid as)).1 hinv'⟩
      rw [hst]
      refine not_fired_of_not_pending (st.erase sid) tr sid ?_ ?_ ?_
      · rw [← hst]
        exact hinv'
      · rw [erase_next]
        exact hinv sid (lookup_some_mem hcb)
      · exact not_mem_keys_erase st sid

theorem CoreState.lookup_none {st : CoreState} {sid : Nat} (h : sid ∉ st.keys) :
    st.lookup sid = none :=
  lookup_none_of_not_mem h

theorem inv_erase {st : CoreState} (h : Inv st) (sid : Nat) : Inv (st.erase sid) := by
  intro k hk
  rw [erase_next]
  exact h k (keys_erase_subset hk)

theorem erase_idem (st : CoreState) (sid : Nat) :
    (st.erase sid).erase sid = st.erase sid := by
  simp only [CoreState.erase, List.filter_filter, CoreState.mk.injEq, true_and]
  congr 1
  funext p
  by_cases hp : p.1 = sid <;> simp [hp]

/-- Every session id allocated along a trace is at least the starting value of
the counter. -/
theorem allocIds_lb (st : CoreState) (tr : List Action) :
    ∀ x ∈ allocIds (run st tr).2, st.nextSessionId ≤ x := by
  induction tr generalizing st with
  | nil => simp [run_nil, allocIds]
  | cons a tr ih =>
    rw [run_cons, allocIds_append]
    intro x hx
    rcases List.mem_append.1 hx with hx | hx
    · rcases step_alloc_cases st a with ⟨ha, _⟩ | ⟨ha, _⟩
      · rw [ha] at hx
        exact absurd hx (List.not_mem_nil x)
      · rw [ha] at hx
        simp only [List.mem_singleton] at hx
        omega
    · have hlb := ih (step st a).1 x hx
      have hmono := step_next_mono st a
      omega

/-- The session ids allocated along a trace are pairwise strictly increasing
in allocation order. -/
theorem allocIds_pairwise (st : CoreState) (tr : List Action) :
    (allocIds (run st tr).2).Pairwise (· < ·) := by
  induction tr generalizing st with
  | nil => simp [run_nil, allocIds]
  | cons a tr ih =>
    rw [run_cons, allocIds_append]
    rcases step_alloc_cases st a with ⟨ha, hn⟩ | ⟨ha, hn⟩
    · rw [ha]
      simpa using ih (step st a).1
    · rw [ha]
      refine List.pairwise_append.2 ⟨List.pairwise_singleton _ _, ih (step st a).1, ?_⟩
      intro x hx y hy
      simp only [List.mem_singleton] at hx
      subst hx
      have := allocIds_lb (step st a).1 tr y hy
      omega

/-- The first session id allocated along a trace is exactly the starting value
of the counter: no action changes the counter other than a successful
allocation. -/
theorem allocIds_head (st : CoreState) (tr : List Action) (x : Nat)
    (h : (allocIds (run st tr).2).head? = some x) : x = st.nextSessionId := by
  induction tr generalizing st with
  | nil => simp [run_nil, allocIds] at h
  | cons a tr ih =>
    rw [run_cons, allocIds_append] at h
    rcases step_alloc_cases st a with ⟨ha, hn⟩ | ⟨ha, hn⟩
    · rw [ha, List.nil_append] at h
      rw [ih (step st a).1 h, hn]
    · rw [ha, List.singleton_append, List.head?_cons, Option.some_inj] at h
      omega

/-- Once the single-fire wrapper's flag is set, every further invocation only
reports the called-once diagnostic and sends nothing. -/
theorem replyCallbackRun_called (message : String) (sid : Nat)
    (calls : List (List JSVal)) :
    replyCallbackRun message sid true calls
      = calls.map (fun _ =>
          .consoleErr ("The callback which reply to \"" ++ message ++
            "\" can only be called once!")) := by
  induction calls with
  | nil => rfl
  | cons as rest ih =>
    simp only [replyCallbackRun, replyCallbackStep, if_pos, List.map_cons]
    rw [ih]
    rfl

-- ========================================
-- Claims
-- ========================================

/-- Claim C1: for every session id, the registered reply continuation is
invoked at most once, ever (over any trace of sends, cancels and reply
envelopes from a state satisfying the counter invariant); when a reply
envelope arrives for a pending session id, the callback is removed from the
pending reply-callback table before it is invoked (the post-state of the
handler no longer contains the id while the invocation event carries the
stored callback); and a reply envelope for a non-pending session id (already
fired, cancelled, or unknown) is a silent no-op. -/
theorem claim1_reply_at_most_once (st : CoreState) (tr : List Action)
    (hinv : Inv st) :
    (firedIds (run st tr).2).Nodup
    ∧ (∀ sid cb args, st.lookup sid = some cb →
        onReplyEnvelope sid args st = (st.erase sid, [.fire sid cb args])
        ∧ sid ∉ (onReplyEnvelope sid args st).1.keys)
    ∧ (∀ sid args, sid ∉ st.keys → onReplyEnvelope sid args st = (st, [])) := by
  refine ⟨firedIds_nodup st tr hinv, ?_, ?_⟩
  · intro sid cb args h
    refine ⟨by simp [onReplyEnvelope, h], ?_⟩
    simp only [onReplyEnvelope, h]
    exact not_mem_keys_erase st sid
  · intro sid args h
    simp [onReplyEnvelope, CoreState.lookup_none h]

/-- Trace used to witness claim C1: one successful request, then the same
reply envelope delivered twice. -/
def traceC1 : List Action :=
  [.sendReq (.vStr "getVersion") [.vFun 7],
   .reply 1000 [.vStr "1.2.3"],
   .reply 1000 [.vStr "1.2.3"]]

/-- Claim C1 witness: on the concrete double-reply trace the invocation log is
duplicate-free, and a reply envelope for the unknown session 55 is a no-op. -/
theorem claim1_witness :
    Inv initState
    ∧ (firedIds (run initState traceC1).2).Nodup
    ∧ onReplyEnvelope 55 [] initState = (initState, []) :=
  ⟨by decide,
   (claim1_reply_at_most_once initState traceC1 (by decide)).1,
   (claim1_reply_at_most_once initState traceC1 (by decide)).2.2 55 [] (by decide)⟩

/-- Claim C2: cancelling a pending session removes its entry without
invoking anything (the cancel step emits no events), after which the stored
continuation can never fire — no later trace of sends, cancels and reply
envelopes ever fires that session id again — and cancellation is idempotent. -/
theorem claim2_cancel_guarantee (st : CoreState) (sid : Nat) (tr : List Action)
    (hinv : Inv st) (hpend : sid ∈ st.keys) :
    sid ∉ (cancelRequestToCore sid st).keys
    ∧ (step st (.cancel sid)).2 = []
    ∧ sid ∉ firedIds (run (cancelRequestToCore sid st) tr).2
    ∧ cancelRequestToCore sid (cancelRequestToCore sid st) = cancelRequestToCore sid st := by
  refine ⟨not_mem_keys_erase st sid, rfl, ?_, erase_idem st sid⟩
  exact not_fired_of_not_pending (st.erase sid) tr sid (inv_erase hinv sid)
    (by rw [erase_next]; exact hinv sid hpend) (not_mem_keys_erase st sid)

/-- State used to witness claim C2: one successful request is pending. -/
def stateC2 : CoreState :=
  (run initState [.sendReq (.vStr "slowOp") [.vFun 3]]).1

/-- Claim C2 witness: cancelling session 1000 while it is pending removes it,
and a reply envelope for 1000 arriving afterwards fires nothing. -/
theorem claim2_witness :
    Inv stateC2
    ∧ 1000 ∈ stateC2.keys
    ∧ 1000 ∉ firedIds (run (cancelRequestToCore 1000 stateC2) [.reply 1000 []]).2 :=
  ⟨by decide, by decide,
   (claim2_cancel_guarantee stateC2 1000 [.reply 1000 []] (by decide) (by decide)).2.2.1⟩

/-- Claim C3: over any trace of actions from the initial state, the session
ids allocated by successful sendRequestToCore calls are strictly increasing
(hence unique), the first allocated id is 1000, and cancelRequestToCore never
affects the counter. -/
theorem claim3_session_ids_increasing (tr : List Action) :
    (allocIds (run initState tr).2).Pairwise (· < ·)
    ∧ (allocIds (run initState tr).2).Nodup
    ∧ (∀ x, (allocIds (run initState tr).2).head? = some x → x = 1000)
    ∧ (∀ st sid, (cancelRequestToCore sid st).nextSessionId = st.nextSessionId) := by
  refine ⟨allocIds_pairwise initState tr, ?_, ?_, ?_⟩
  · exact (allocIds_pairwise initState tr).imp Nat.ne_of_lt
  · intro x hx
    exact allocIds_head initState tr x hx
  · intro st sid
    exact erase_next st sid

/-- Trace used to witness claim C3: two successful requests interleaved with
cancels (including a cancel of a not-yet-allocated id) and one failed call. -/
def traceC3 : List Action :=
  [.sendReq (.vStr "getVersion") [.vFun 0],
   .cancel 1000,
   .sendReq (.vNum 5) [.vFun 1],
   .sendReq (.vStr "saveScene") [.vStr "path", .vFun 2],
   .cancel 7777]

/-- Claim C3 witness: on the concrete trace the allocated ids are [1000, 1001],
strictly increasing with head 1000, and a cancel leaves the counter alone. -/
theorem claim3_witness :
    allocIds (run initState traceC3).2 = [1000, 1001]
    ∧ (allocIds (run initState traceC3).2).Pairwise (· < ·)
    ∧ (1000 : Nat) = 1000
    ∧ (cancelRequestToCore 9 initState).nextSessionId = initState.nextSessionId :=
  ⟨by decide,
   (claim3_session_ids_increasing traceC3).1,
   (claim3_session_ids_increasing traceC3).2.2.1 1000 (by decide),
   (claim3_session_ids_increasing traceC3).2.2.2 initState 9⟩

/-- Claim C4 counterexample: the empty string is not a non-empty string, yet
sendRequestToCore accepts it — the validation is only a typeof-string check —
and returns session id 1000 instead of the null the claim requires. -/
theorem claim4_counterexample :
    (sendRequestToCore (.vStr "") [.vFun 0] initState).1 = some 1000
    ∧ (sendRequestToCore (.vStr "") [.vFun 0] initState).1 ≠ none
    ∧ (.vStr "" : JSVal).strVal = "" := by
  refine ⟨rfl, ?_, rfl⟩
  intro h
  exact Option.noConfusion h

/-- Claim C4 (amended): sendRequestToCore returns null and reports a
diagnostic error exactly when the message is not a string (an empty string is
accepted), or there are no positional arguments, or the last positional
argument is not a function; otherwise it registers the continuation under the
freshly allocated session id, routes the request envelope, and returns that
session id. -/
theorem claim4_validation (m : JSVal) (args : List JSVal) (st : CoreState) :
    ((m.typeofStr ≠ "string" ∨ args.length = 0
        ∨ ((args.getLast?).getD .vUndefined).typeofStr ≠ "function") →
      (sendRequestToCore m args st).1 = none
      ∧ ∃ e, (sendRequestToCore m args st).2.2 = [.consoleErr e])
    ∧ (m.typeofStr = "string" → args.length ≠ 0 →
        ((args.getLast?).getD .vUndefined).typeofStr = "function" →
      (sendRequestToCore m args st).1 = some st.nextSessionId
      ∧ (sendRequestToCore m args st).2.1.lookup st.nextSessionId
          = some ((args.getLast?).getD .vUndefined)
      ∧ (sendRequestToCore m args st).2.2
          = [.reqToCore m.strVal st.nextSessionId args.dropLast]) := by
  constructor
  · intro h
    unfold sendRequestToCore
    dsimp only
    split_ifs with h1 h2 h3
    · exact ⟨rfl, _, rfl⟩
    · exact ⟨rfl, _, rfl⟩
    · exact ⟨rfl, _, rfl⟩
    · exfalso
      rcases h with h | h | h
      · exact h1 h
      · exact h2 h
      · exact h3 h
  · intro hs hl hf
    unfold sendRequestToCore
    dsimp only
    split_ifs with h1 h2
    · exact absurd hs h1
    · exact absurd hf h2
    · refine ⟨rfl, ?_, rfl⟩
      simp [CoreState.lookup, List.lookup_cons]

/-- Claim C4 witness: a failing call (numeric message) returns null with a
diagnostic, and a succeeding call returns the fresh session id 1000. -/
theorem claim4_witness :
    (sendRequestToCore (.vNum 3) [.vFun 0] initState).1 = none
    ∧ (sendRequestToCore (.vStr "getVersion") [.vFun 0] initState).1 = some 1000 :=
  ⟨((claim4_validation (.vNum 3) [.vFun 0] initState).1 (by decide)).1,
   ((claim4_validation (.vStr "getVersion") [.vFun 0] initState).2
      (by decide) (by decide) (by decide)).1⟩

/-- Claim C5 counterexample: when no listener is registered for the inbound
request "foo" (session 1000), the handler's entire output is the local
dispatch attempt plus a local Console.error diagnostic; no reply-to-sender
envelope — nothing addressed to the requesting endpoint — is produced, so the
diagnostic is observed only at the coordinating process and the caller side
receives no signal. -/
theorem claim5_counterexample :
    onReqToCore false "foo" 1000 []
      = [.emitReq "foo" 1000 [],
         .consoleErr "The listener of message \"foo\" is not yet registered!"]
    ∧ (onReqToCore false "foo" 1000 []).countP (fun e => e.isReplyToSender) = 0 :=
  ⟨rfl, rfl⟩

/-- Claim C5 (amended): when an inbound request envelope is dispatched at the
coordinating process and no handler is registered, the handler still performs
the dispatch attempt and reports the listener-not-registered diagnostic to the
coordinating process's local diagnostic sink; no envelope of any kind is sent
back to the requesting endpoint, whose session simply stays pending; when a
handler is registered, no such diagnostic is reported. -/
theorem claim5_unregistered_local (message : String) (sid : Nat)
    (args : List JSVal) :
    onReqToCore false message sid args
      = [.emitReq message sid args,
         .consoleErr ("The listener of message \"" ++ message ++
           "\" is not yet registered!")]
    ∧ (onReqToCore false message sid args).countP (fun e => e.isReplyToSender) = 0
    ∧ (onReqToCore false message sid args).countP (fun e => e.isConsoleErr) = 1
    ∧ (onReqToCore true message sid args).countP (fun e => e.isConsoleErr) = 0 := by
  refine ⟨rfl, ?_, ?_, ?_⟩ <;>
    simp [onReqToCore, List.countP_cons, Event.isReplyToSender, Event.isConsoleErr]

/-- Claim C6: the single-fire reply wrapper sends the reply envelope
(sessionId, args) back to the originating endpoint on its first invocation
only; every subsequent invocation is reported as a called-once error and
discarded, so at most one reply envelope is ever produced, whatever the
number of invocations. -/
theorem claim6_single_fire (message : String) (sid : Nat)
    (calls : List (List JSVal)) :
    (replyCallbackRun message sid false calls).countP (fun e => e.isReplyToSender)
        = min 1 calls.length
    ∧ (∀ as rest, calls = as :: rest →
        replyCallbackRun message sid false calls
          = .replyToSender sid as ::
            rest.map (fun _ =>
              .consoleErr ("The callback which reply to \"" ++ message ++
                "\" can only be called once!"))) := by
  constructor
  · cases calls with
    | nil => rfl
    | cons as rest =>
      simp only [replyCallbackRun, replyCallbackStep, if_neg Bool.false_ne_true]
      rw [replyCallbackRun_called]
      simp [List.countP_cons, List.countP_map, Event.isReplyToSender, List.countP_eq_zero]
  · rintro as rest rfl
    simp only [replyCallbackRun, replyCallbackStep, if_neg Bool.false_ne_true]
    rw [replyCallbackRun_called]
    rfl

/-- Claim C6 witness: three invocations of one wrapper produce exactly one
reply envelope (from the first call's arguments) followed by two called-once
diagnostics. -/
theorem claim6_witness :
    replyCallbackRun "foo" 1000 false [[.vStr "a"], [], [.vNum 1]]
      = [.replyToSender 1000 [.vStr "a"],
         .consoleErr "The callback which reply to \"foo\" can only be called once!",
         .consoleErr "The callback which reply to \"foo\" can only be called once!"] :=
  (claim6_single_fire "foo" 1000 [[.vStr "a"], [], [.vNum 1]]).2
    [.vStr "a"] [[], [.vNum 1]] rfl

/-- Claim C7 counterexample: sendToWins is a public broadcast call, yet a
trailing argument that structurally matches the exclude-self sentinel (the
module's own excludeSelf object) is neither removed from the argument list nor
interpreted — it is delivered to the windows as an ordinary payload argument —
so the extraction does not happen on every public send/broadcast call. -/
theorem claim7_counterexample :
    isExcludeSelfOpt excludeSelfVal = true
    ∧ sendToWins "foo" [excludeSelfVal] = [.send2wins "foo" [excludeSelfVal]] :=
  ⟨rfl, rfl⟩

/-- Claim C7 (amended): for sendToAll (the send/broadcast entry point that
extracts the option; sendToWins performs no extraction), the last positional
argument is removed and interpreted as excludeSelf exactly when it carries the
truthy explicit marker field and its exclude field strictly equals self: a
trailing value without the marker is never removed and never mistaken for the
sentinel; a marked option object whose exclude field is not self is removed
but not interpreted as excludeSelf; and when excludeSelf is set the message
still goes to all windows while the sender's own delivery — the main
process's local dispatch — is skipped. -/
theorem claim7_excludeSelf (message : String) (args : List JSVal) (L : JSVal)
    (hlast : args.getLast? = some L) :
    (isIpcOpt L = false →
      sendToAll message args
        = [.main2main message args, .send2wins message args])
    ∧ (isIpcOpt L = true → (L.getField "exclude").isSelfStr = false →
      sendToAll message args
        = [.main2main message args.dropLast, .send2wins message args.dropLast])
    ∧ (isExcludeSelfOpt L = true →
      sendToAll message args = [.send2wins message args.dropLast]) := by
  have hne : args.length ≠ 0 := by
    cases args with
    | nil => simp at hlast
    | cons x xs => simp
  refine ⟨?_, ?_, ?_⟩
  · intro hopt
    simp [sendToAll, if_pos hne, _popOption, hlast, hopt]
  · intro hopt hself
    simp [sendToAll, if_pos hne, _popOption, hlast, hopt, hself]
  · intro hopt
    rw [isExcludeSelfOpt, Bool.and_eq_true] at hopt
    simp [sendToAll, if_pos hne, _popOption, hlast, hopt.1, hopt.2]

/-- Claim C7 witness: broadcasting with the sentinel as last argument removes
it and skips the main process's own delivery while still reaching all
windows; a plain trailing string is left alone. -/
theorem claim7_witness :
    ([.vStr "x", excludeSelfVal] : List JSVal).getLast? = some excludeSelfVal
    ∧ sendToAll "ping" [.vStr "x", excludeSelfVal]
        = [.send2wins "ping" [.vStr "x"]]
    ∧ sendToAll "ping" [.vStr "x"]
        = [.main2main "ping" [.vStr "x"], .send2wins "ping" [.vStr "x"]] :=
  ⟨rfl,
   (claim7_excludeSelf "ping" [.vStr "x", excludeSelfVal] excludeSelfVal rfl).2.2 rfl,
   (claim7_excludeSelf "ping" [.vStr "x"] (.vStr "x") rfl).1 rfl⟩

/-- Claim C8: sendToPanel resolves the owner window and the panel descriptor
through the external registries and then delivers according to the panel
kind — a simple panel's owner window receives the raw message and arguments,
any other (composite) kind receives the wrapped editor:send2panel envelope
carrying the panelID, the message and the arguments — while a failed window or
descriptor lookup drops the message with no delivery and no fault. -/
theorem claim8_sendToPanel (env : PanelEnv) (panelID message : String)
    (args : List JSVal) :
    (env.findWindow panelID = none → sendToPanel env panelID message args = [])
    ∧ (∀ win, env.findWindow panelID = some win → env.panelInfo panelID = none →
        sendToPanel env panelID message args = [])
    ∧ (∀ win, env.findWindow panelID = some win →
        env.panelInfo panelID = some ⟨"simple"⟩ →
        sendToPanel env panelID message args = [.sendToPage win message args])
    ∧ (∀ win ty, env.findWindow panelID = some win →
        env.panelInfo panelID = some ⟨ty⟩ → ty ≠ "simple" →
        sendToPanel env panelID message args
          = [.sendToPage win "editor:send2panel"
              (.vStr panelID :: .vStr message :: args)]) := by
  refine ⟨?_, ?_, ?_, ?_⟩
  · intro h
    simp [sendToPanel, h]
  · intro win hw hp
    simp [sendToPanel, hw, hp]
  · intro win hw hp
    simp [sendToPanel, hw, hp]
  · intro win ty hw hp hty
    simp [sendToPanel, hw, hp, hty]

/-- Concrete panel registries used to witness claim C8: a simple panel, a
composite (dockable) panel, a panel whose window lookup fails, and a panel
with a window but no descriptor. -/
def panelEnvEx : PanelEnv where
  findWindow pid := if pid = "pkg.gone" then none else some 1
  panelInfo pid :=
    if pid = "pkg.simple" then some ⟨"simple"⟩
    else if pid = "pkg.comp" then some ⟨"dockable"⟩
    else none

/-- Claim C8 witness: the simple panel gets the raw message, the composite
panel gets the wrapped envelope, and both failed lookups drop the message. -/
theorem claim8_witness :
    sendToPanel panelEnvEx "pkg.simple" "refresh" [] = [.sendToPage 1 "refresh" []]
    ∧ sendToPanel panelEnvEx "pkg.comp" "refresh" []
        = [.sendToPage 1 "editor:send2panel" [.vStr "pkg.comp", .vStr "refresh"]]
    ∧ sendToPanel panelEnvEx "pkg.gone" "refresh" [] = []
    ∧ sendToPanel panelEnvEx "pkg.nodesc" "refresh" [] = [] :=
  ⟨(claim8_sendToPanel panelEnvEx "pkg.simple" "refresh" []).2.2.1 1
      (by decide) (by decide),
   (claim8_sendToPanel panelEnvEx "pkg.comp" "refresh" []).2.2.2 1 "dockable"
      (by decide) (by decide) (by decide),
   (claim8_sendToPanel panelEnvEx "pkg.gone" "refresh" []).1 (by decide),
   (claim8_sendToPanel panelEnvEx "pkg.nodesc" "refresh" []).2.1 1
      (by decide) (by decide)⟩

/-- Claim C9: for every message and argument list, sendToMainWin with the
main window absent produces exactly one console diagnostic and no delivery of
any kind (as a total function it neither raises nor retries), and with the
main window present it delivers the message and arguments to that window's
page. -/
theorem claim9_sendToMainWin (message : String) (args : List JSVal) :
    sendToMainWin none message args
      = [.consoleErr ("Failed to send \"" ++ message ++
          "\" to main window, the main window is not found.")]
    ∧ (sendToMainWin none message args).countP (fun e => e.isConsoleErr)
        = (sendToMainWin none message args).length
    ∧ (∀ w, sendToMainWin (some w) message args = [.sendToPage w message args]) := by
  refine ⟨rfl, rfl, ?_⟩
  intro w
  rfl

/-- Claim C10: a sendRequestToCore call that fails validation is fully
atomic — it leaves the whole correlator state unchanged (counter and pending
reply-callback table), and every event it emits is a console diagnostic, so
no request envelope is dispatched and the next successful call's session id
is unaffected. -/
theorem claim10_failure_atomic (m : JSVal) (args : List JSVal) (st : CoreState)
    (h : (sendRequestToCore m args st).1 = none) :
    (sendRequestToCore m args st).2.1 = st
    ∧ (sendRequestToCore m args st).2.1.nextSessionId = st.nextSessionId
    ∧ (sendRequestToCore m args st).2.1.replyCallbacks = st.replyCallbacks
    ∧ (sendRequestToCore m args st).2.2.countP (fun e => e.isConsoleErr)
        = (sendRequestToCore m args st).2.2.length := by
  rcases sendRequestToCore_cases m args st with ⟨e, he⟩ | he
  · rw [he]
    exact ⟨rfl, rfl, rfl, rfl⟩
  · rw [he] at h
    exact absurd h (by simp)

/-- Claim C10 witness: the failing call with an empty argument list changes
nothing, and the next successful call still allocates session id 1000. -/
theorem claim10_witness :
    (sendRequestToCore (.vStr "foo") [] initState).1 = none
    ∧ (sendRequestToCore (.vStr "foo") [] initState).2.1 = initState
    ∧ (sendRequestToCore (.vStr "getVersion") [.vFun 0]
        (sendRequestToCore (.vStr "foo") [] initState).2.1).1 = some 1000 :=
  ⟨rfl, (claim10_failure_atomic (.vStr "foo") [] initState rfl).1, rfl⟩

end Ipc
